import Mathlib

/-!
Verification of the `conduites` BFF gateway's downstream-client and resolver
layer, shallowly embedded in Lean 4.

The embedding translates the TypeScript source:
  * `HttpClient` (request/response wrapper, timeout and error normalization,
    health probing) from `src/services/httpClient.ts`;
  * envelope service clients (`userService.ts`, `productService.ts`,
    `notificationService.ts`) and the direct-fetch clients
    (`accountService.ts`, `customerService.ts`);
  * the GraphQL resolvers (`accountResolver`, `customerResolver`, the
    `userResolvers`/`customerResolvers` maps) and the health aggregator
    (`notificationResolvers.Query.health`).

JavaScript effects are modelled explicitly: an outbound call is a value of
`OutboundRequest`; the network is a function `Env` from requests to
`FetchOutcome`; code that can throw returns `Except Throwable _`; `await`
of a promise that may reject is `Except` bind; `try/catch` is `jsTry`;
`Promise.allSettled` entries are `SettleResult`.  Machine numbers that the
code only compares and subtracts (HTTP statuses, timestamps) are `Nat`/`Int`.
-/

namespace Conduites

/-- JSON values, the model of every request/response body. -/
inductive Json where
  | null
  | bool (b : Bool)
  | num (n : Int)
  | str (s : String)
  | arr (elems : List Json)
  | obj (fields : List (String × Json))
deriving Repr

mutual

/-- Model of `JSON.stringify` on the embedded JSON values. -/
def Json.stringify : Json → String
  | .null => "null"
  | .bool true => "true"
  | .bool false => "false"
  | .num n => toString n
  | .str s => "\"" ++ s ++ "\""
  | .arr xs => "[" ++ Json.stringifyItems xs ++ "]"
  | .obj fs => "\x7b" ++ Json.stringifyMembers fs ++ "\x7d"

/-- Comma-separated serialization of JSON array elements. -/
def Json.stringifyItems : List Json → String
  | [] => ""
  | [x] => Json.stringify x
  | x :: y :: rest => Json.stringify x ++ "," ++ Json.stringifyItems (y :: rest)

/-- Comma-separated serialization of JSON object members. -/
def Json.stringifyMembers : List (String × Json) → String
  | [] => ""
  | [(k, v)] => "\"" ++ k ++ "\":" ++ Json.stringify v
  | (k, v) :: m :: rest =>
      "\"" ++ k ++ "\":" ++ Json.stringify v ++ "," ++ Json.stringifyMembers (m :: rest)

end

/-- JavaScript truthiness of a JSON value (`null`, `false`, `0` and `""` are
falsy; arrays and objects are always truthy). -/
def Json.truthy : Json → Bool
  | .null => false
  | .bool b => b
  | .num n => n != 0
  | .str s => s != ""
  | .arr _ => true
  | .obj _ => true

/-- A JavaScript throwable: either an `Error` instance (with its `name` and
`message` properties) or any non-`Error` value. -/
inductive Throwable where
  | error (name message : String)
  | nonError
deriving Repr, DecidableEq

/-- `error instanceof Error ? error.message : fallback`. -/
def Throwable.messageOr (t : Throwable) (fallback : String) : String :=
  match t with
  | .error _ msg => msg
  | .nonError => fallback

/-- An HTTP response as exposed by `fetch`: status, status text, and the
outcome of `await response.json()` (which may itself throw). -/
structure FetchResponse where
  status : Nat
  statusText : String
  jsonBody : Except Throwable Json
deriving Repr

/-- The Fetch standard's `Response.ok`: status in the 2xx success range. -/
def FetchResponse.ok (r : FetchResponse) : Bool :=
  decide (200 ≤ r.status) && decide (r.status ≤ 299)

/-- Outcome of `await fetch(...)`: a response, or a rejection. -/
inductive FetchOutcome where
  | response (r : FetchResponse)
  | thrown (t : Throwable)
deriving Repr

/-- One outbound HTTP call as emitted by a client: URL, method, headers, the
optional serialized body, and the cancellation deadline attached to the call
(`none` when the call is issued with no abort signal). -/
structure OutboundRequest where
  url : String
  method : String
  headers : List (String × String)
  body : Option String
  timeoutMs : Option Nat
deriving Repr, DecidableEq

/-- The network environment: what each emitted request comes back with. -/
def Env : Type := OutboundRequest → FetchOutcome

/-- The `ServiceResponse<T>` envelope of `httpClient.ts`:
`{ status; data?; error? }`, with absent optional fields as `none`. -/
structure ServiceResponse where
  status : Nat
  data : Option Json
  error : Option String
deriving Repr

/-- JavaScript truthiness of an optional string property
(absent and `""` are falsy). -/
def jsTruthyStr : Option String → Bool
  | none => false
  | some s => s != ""

/-- JavaScript truthiness of an optional JSON property
(absent, `null`, `false`, `0`, `""` are falsy). -/
def jsTruthyData : Option Json → Bool
  | none => false
  | some j => j.truthy

/-- `try { body } catch (e) { handler e }` over the `Except` model. -/
def jsTry {α : Type} (body : Except Throwable α)
    (handler : Throwable → Except Throwable α) : Except Throwable α :=
  match body with
  | .ok v => .ok v
  | .error t => handler t

/-- `await` of a fetch call: a response is returned, a rejection rethrows. -/
def jsAwaitFetch (o : FetchOutcome) : Except Throwable FetchResponse :=
  match o with
  | .response r => .ok r
  | .thrown t => .error t

/-- Process-wide configuration, as resolved from environment variables with
their defaults (`config/index.ts` and `config/environment.ts`). -/
structure AppConfig where
  requestTimeout : Nat
  serviceName : String
  serviceVersion : String
  userServiceUrl : String
  productServiceUrl : String
  notificationServiceUrl : String
  accountServiceUrl : String
  customerServiceUrl : String
deriving Repr, DecidableEq

/-- The configuration with every environment variable unset (the defaults
hard-coded in `config/index.ts` / `config/environment.ts`). -/
def appConfigDefault : AppConfig :=
  ⟨30000, "conduites-bff", "1.0.0",
   "http://user-service:8080", "http://product-service:8080",
   "http://notification-service:8080", "http://account-service:8080",
   "http://customer-service:8080"⟩

/-- `baseUrl.replace(/\/$/, '')`: strip one trailing slash. -/
def stripTrailingSlash (s : String) : String :=
  if s.endsWith "/" then s.dropRight 1 else s

/-- Object-spread merge `{ ...base, ...extra }` on header maps: keys of
`extra` override those of `base`. -/
def mergeHeaders (base extra : List (String × String)) : List (String × String) :=
  base.filter (fun p => !(extra.any (fun q => q.1 == p.1))) ++ extra

/-- `x || dflt` on the optional numeric `options.timeout` (JS `||`:
`undefined` and `0` fall back to the default). -/
def jsOrTimeout (x : Option Nat) (dflt : Nat) : Nat :=
  match x with
  | none => dflt
  | some t => if t = 0 then dflt else t

/-- The `HttpClient` state after construction: trimmed base URL, resolved
timeout, and the merged default headers. -/
structure HttpClient where
  baseUrl : String
  timeout : Nat
  defaultHeaders : List (String × String)
deriving Repr, DecidableEq

/-- The `HttpClient` constructor: strips the base URL's trailing slash,
resolves `options.timeout || appConfig.request.timeout`, and merges
`Content-Type`/`User-Agent` with `options.headers`. -/
def HttpClient.create (cfg : AppConfig) (baseUrl : String)
    (timeoutOpt : Option Nat) (headers : List (String × String)) : HttpClient :=
  ⟨stripTrailingSlash baseUrl,
   jsOrTimeout timeoutOpt cfg.requestTimeout,
   mergeHeaders
     [("Content-Type", "application/json"),
      ("User-Agent", cfg.serviceName ++ "/" ++ cfg.serviceVersion)]
     headers⟩

/-- `data ? JSON.stringify(data) : undefined`: the body field of the emitted
call, by JS truthiness of `data`. -/
def jsRequestBody (data : Option Json) : Option String :=
  match data with
  | none => none
  | some j => if j.truthy then some j.stringify else none

/-- The single outbound call emitted by `HttpClient.request`: concatenated
URL, merged headers, truthiness-guarded JSON body, and the abort deadline
`setTimeout(() => controller.abort(), this.timeout)`. -/
def HttpClient.buildRequest (c : HttpClient) (method path : String)
    (data : Option Json) (hdrs : List (String × String)) : OutboundRequest :=
  ⟨c.baseUrl ++ path, method, mergeHeaders c.defaultHeaders hdrs,
   jsRequestBody data, some c.timeout⟩

/-- `HttpClient.request`'s result: awaits the fetch; on a non-ok status
returns the `HTTP <status>: <status text>` error envelope without touching
the body; on an ok status parses the JSON body; the catch block maps an
`AbortError` to `{408, "Request timeout"}`, any other `Error` to
`{500, <message>}`, and a non-`Error` throwable to
`{500, "Unknown error occurred"}`. -/
def HttpClient.requestE (c : HttpClient) (env : Env) (method path : String)
    (data : Option Json) (hdrs : List (String × String)) :
    Except Throwable ServiceResponse :=
  jsTry
    (match jsAwaitFetch (env (c.buildRequest method path data hdrs)) with
     | .error t => .error t
     | .ok r =>
        if !r.ok then
          .ok ⟨r.status, none,
               some ("HTTP " ++ toString r.status ++ ": " ++ r.statusText)⟩
        else
          match r.jsonBody with
          | .error t => .error t
          | .ok j => .ok ⟨r.status, some j, none⟩)
    (fun t =>
      match t with
      | .error name msg =>
          if name = "AbortError" then .ok ⟨408, none, some "Request timeout"⟩
          else .ok ⟨500, none, some msg⟩
      | .nonError => .ok ⟨500, none, some "Unknown error occurred"⟩)

/-- `HttpClient.request` with its emission trace: the one call it issues,
paired with the normalized envelope. -/
def HttpClient.request (c : HttpClient) (env : Env) (method path : String)
    (data : Option Json) (hdrs : List (String × String)) :
    List OutboundRequest × Except Throwable ServiceResponse :=
  ([c.buildRequest method path data hdrs], c.requestE env method path data hdrs)

/-- `{status: "healthy"|"unhealthy", responseTime}` as produced by
`HttpClient.healthCheck` and by the per-service delegating health checks. -/
structure HealthResult where
  status : String
  responseTime : Int
deriving Repr, DecidableEq

/-- `HttpClient.healthCheck()`: `GET /health` on the same base URL, elapsed
wall-clock time `now - startTime`, status `"healthy"` exactly when the
envelope's status is `200`; the catch block converts any raised error into
an `"unhealthy"` result instead of rethrowing. -/
def HttpClient.healthCheckE (c : HttpClient) (env : Env) (startTime now : Int) :
    Except Throwable HealthResult :=
  jsTry
    (match c.requestE env "GET" "/health" none [] with
     | .error t => .error t
     | .ok resp =>
        .ok ⟨if resp.status = 200 then "healthy" else "unhealthy", now - startTime⟩)
    (fun _ => .ok ⟨"unhealthy", now - startTime⟩)

/-- The singleton `HttpClient` of `userService.ts`. -/
def userClient (cfg : AppConfig) : HttpClient :=
  HttpClient.create cfg cfg.userServiceUrl none []

/-- The singleton `HttpClient` of `productService.ts`. -/
def productClient (cfg : AppConfig) : HttpClient :=
  HttpClient.create cfg cfg.productServiceUrl none []

/-- The singleton `HttpClient` of `notificationService.ts`. -/
def notificationClient (cfg : AppConfig) : HttpClient :=
  HttpClient.create cfg cfg.notificationServiceUrl none []

/-- `UserService.getUserById`: one `GET /users/:id` through the shared
client; throws `Error(response.error || 'Failed to fetch user')` when the
envelope's `error` is truthy or its `data` is falsy, else returns `data`. -/
def UserService.getUserById (cfg : AppConfig) (env : Env) (id : String) :
    Except Throwable Json :=
  match (userClient cfg).requestE env "GET" ("/users/" ++ id) none [] with
  | .error t => .error t
  | .ok resp =>
      if jsTruthyStr resp.error || !jsTruthyData resp.data then
        .error (.error "Error"
          (if jsTruthyStr resp.error then resp.error.getD "" else "Failed to fetch user"))
      else
        .ok (resp.data.getD .null)

/-- `UserService.deleteUser`: one `DELETE /users/:id`; throws
`Error(response.error)` when the envelope's `error` is truthy, else returns
`response.status === 204`. -/
def UserService.deleteUser (cfg : AppConfig) (env : Env) (id : String) :
    Except Throwable Bool :=
  match (userClient cfg).requestE env "DELETE" ("/users/" ++ id) none [] with
  | .error t => .error t
  | .ok resp =>
      if jsTruthyStr resp.error then .error (.error "Error" (resp.error.getD ""))
      else .ok (decide (resp.status = 204))

/-- `ProductService.deleteProduct`: one `DELETE /products/:id`; throws
`Error(response.error)` when the envelope's `error` is truthy, else returns
`response.status === 204`. -/
def ProductService.deleteProduct (cfg : AppConfig) (env : Env) (id : String) :
    Except Throwable Bool :=
  match (productClient cfg).requestE env "DELETE" ("/products/" ++ id) none [] with
  | .error t => .error t
  | .ok resp =>
      if jsTruthyStr resp.error then .error (.error "Error" (resp.error.getD ""))
      else .ok (decide (resp.status = 204))

/-- `NotificationService.deleteNotification`: one `DELETE /notifications/:id`;
throws `Error(response.error)` when the envelope's `error` is truthy, else
returns `response.status === 204`. -/
def NotificationService.deleteNotification (cfg : AppConfig) (env : Env) (id : String) :
    Except Throwable Bool :=
  match (notificationClient cfg).requestE env "DELETE" ("/notifications/" ++ id) none [] with
  | .error t => .error t
  | .ok resp =>
      if jsTruthyStr resp.error then .error (.error "Error" (resp.error.getD ""))
      else .ok (decide (resp.status = 204))

/-- `NotificationService.healthCheck`: delegates to the shared client. -/
def NotificationService.healthCheck (cfg : AppConfig) (env : Env) (t0 t1 : Int) :
    Except Throwable HealthResult :=
  (notificationClient cfg).healthCheckE env t0 t1

/-- `AccountService.getAccountById` (`accountService.ts`, direct client):
one bare `fetch(url)` with no headers and no abort signal; throws
`Error("Failed to fetch account <id>: <status> <statusText>")` when the
response is not ok, else returns the parsed JSON body. -/
def AccountService.getAccountById (cfg : AppConfig) (env : Env) (id : String) :
    List OutboundRequest × Except Throwable Json :=
  let req : OutboundRequest :=
    ⟨cfg.accountServiceUrl ++ "/accounts/" ++ id, "GET", [], none, none⟩
  ([req],
   match env req with
   | .thrown t => .error t
   | .response r =>
      if !r.ok then
        .error (.error "Error"
          ("Failed to fetch account " ++ id ++ ": " ++ toString r.status ++ " " ++ r.statusText))
      else r.jsonBody)

/-- `AccountService.getAccountsByCustomerId` (`accountService.ts`, direct
client): one bare `fetch` of `/accounts?customerId=<id>` with no abort
signal; throws on a non-ok response, else returns the parsed JSON body. -/
def AccountService.getAccountsByCustomerId (cfg : AppConfig) (env : Env)
    (customerId : String) : List OutboundRequest × Except Throwable Json :=
  let req : OutboundRequest :=
    ⟨cfg.accountServiceUrl ++ "/accounts?customerId=" ++ customerId, "GET", [], none, none⟩
  ([req],
   match env req with
   | .thrown t => .error t
   | .response r =>
      if !r.ok then
        .error (.error "Error"
          ("Failed to fetch accounts for customer " ++ customerId ++ ": "
            ++ toString r.status ++ " " ++ r.statusText))
      else r.jsonBody)

/-- `CustomerService.getCustomerById` (`customerService.ts`, direct client):
one `fetch` of `/customers/:id` with a `Content-Type` header and no abort
signal; throws on a non-ok response, else returns the parsed JSON body. -/
def CustomerService.getCustomerById (cfg : AppConfig) (env : Env) (id : String) :
    List OutboundRequest × Except Throwable Json :=
  let req : OutboundRequest :=
    ⟨cfg.customerServiceUrl ++ "/customers/" ++ id, "GET",
     [("Content-Type", "application/json")], none, none⟩
  ([req],
   match env req with
   | .thrown t => .error t
   | .response r =>
      if !r.ok then
        .error (.error "Error"
          ("Failed to fetch customer " ++ id ++ ": " ++ toString r.status ++ " " ++ r.statusText))
      else r.jsonBody)

/-- An error as it leaves a resolver toward the GraphQL engine: either a
`GraphQLError` built at the resolver boundary, a plain `Error`, or some
non-`Error` throwable. -/
inductive GqlThrown where
  | graphQLError (message : String)
  | plainError (message : String)
  | otherThrown
deriving Repr, DecidableEq

/-- A service-layer throwable crossing a resolver that does not catch it:
the value propagates unchanged, so a plain `Error` stays a plain error with
the same message and never becomes a `GraphQLError`. -/
def Throwable.toGql : Throwable → GqlThrown
  | .error _ msg => .plainError msg
  | .nonError => .otherThrown

/-- The parent object handed to the `Customer.accounts` field resolver. -/
structure CustomerParent where
  id : String
deriving Repr, DecidableEq

/-- `accountResolver.getAccount` (wired as `Query.account`): pass-through to
`accountService.getAccountById`; the catch block throws
`GraphQLError(error instanceof Error ? error.message : 'Failed to fetch account')`. -/
def accountResolver.getAccount (cfg : AppConfig) (env : Env) (id : String) :
    List OutboundRequest × Except GqlThrown Json :=
  let res := AccountService.getAccountById cfg env id
  (res.1,
   match res.2 with
   | .ok v => .ok v
   | .error t => .error (.graphQLError (t.messageOr "Failed to fetch account")))

/-- `customerResolver.getAccounts` (wired as `Customer.accounts`): reads
`customer.id` off the parent, passes through to
`accountService.getAccountsByCustomerId`, and throws
`GraphQLError(<message>)` on failure. -/
def customerResolver.getAccounts (cfg : AppConfig) (env : Env)
    (customer : CustomerParent) : List OutboundRequest × Except GqlThrown Json :=
  let res := AccountService.getAccountsByCustomerId cfg env customer.id
  (res.1,
   match res.2 with
   | .ok v => .ok v
   | .error t => .error (.graphQLError (t.messageOr "Failed to fetch accounts")))

/-- `customerResolver.getCustomer` (wired as `Query.customer`): pass-through
to `customerService.getCustomerById`, throwing `GraphQLError(<message>)`
on failure. -/
def customerResolver.getCustomer (cfg : AppConfig) (env : Env) (id : String) :
    List OutboundRequest × Except GqlThrown Json :=
  let res := CustomerService.getCustomerById cfg env id
  (res.1,
   match res.2 with
   | .ok v => .ok v
   | .error t => .error (.graphQLError (t.messageOr "Failed to fetch customer")))

/-- `userResolvers.Query.user`: `return await userService.getUserById(id)`
with no try/catch — a service failure propagates out of the resolver
unconverted. -/
def userQueryUser (cfg : AppConfig) (env : Env) (id : String) :
    Except GqlThrown Json :=
  match UserService.getUserById cfg env id with
  | .ok v => .ok v
  | .error t => .error t.toGql

/-- The placeholder `customerService.getCustomerById` hard-coded in the
alternate `customerResolvers` module: always fulfills with a stub record. -/
def placeholderGetCustomerById (id : String) : Except Throwable Json :=
  .ok (.obj
    [("id", .str id),
     ("name", .str ("Customer " ++ id)),
     ("email", .str ("customer" ++ id ++ "@example.com"))])

/-- `customerResolvers.Query.customer` (the alternate resolver map): calls
the placeholder service; its catch block throws a plain
`Error("Failed to fetch customer: " ++ <message or 'Unknown error'>)`. -/
def customerResolversQueryCustomer (id : String) : Except GqlThrown Json :=
  match placeholderGetCustomerById id with
  | .ok v => .ok v
  | .error t => .error (.plainError ("Failed to fetch customer: " ++ t.messageOr "Unknown error"))

/-- A `Promise.allSettled` slot: fulfilled with a value or rejected with the
promise's rejection reason. -/
inductive SettleResult (α : Type) where
  | fulfilled (value : α)
  | rejected (reason : Throwable)
deriving Repr, DecidableEq

/-- How `Promise.allSettled` settles the promise of a computation: a normal
return fulfills, a throw rejects. -/
def promiseSettle {α : Type} (e : Except Throwable α) : SettleResult α :=
  match e with
  | .ok v => .fulfilled v
  | .error t => .rejected t

/-- One entry of the aggregator's `services` array
(`responseTime = none` models JSON `null`). -/
structure ServiceHealthEntry where
  name : String
  status : String
  responseTime : Option Int
deriving Repr, DecidableEq

/-- JS `x || 0` on a number (only `0` itself is falsy here). -/
def jsNumOrZero (x : Int) : Int :=
  if x = 0 then 0 else x

/-- The aggregator's `services.map` body: a fulfilled slot becomes
`{name, "healthy", result.value.responseTime || 0}`, a rejected slot becomes
`{name, "unhealthy", null}` — the slot's settle status is inspected, never
the fulfilled value's own `status` field. -/
def settledHealthEntry (name : String) (r : SettleResult HealthResult) :
    ServiceHealthEntry :=
  match r with
  | .fulfilled v => ⟨name, "healthy", some (jsNumOrZero v.responseTime)⟩
  | .rejected _ => ⟨name, "unhealthy", none⟩

/-- The composite snapshot returned by `Query.health`. -/
structure HealthSnapshot where
  status : String
  timestamp : String
  services : List ServiceHealthEntry
deriving Repr, DecidableEq

/-- `notificationResolvers.Query.health`: `Promise.allSettled` over the
participating health checks (the notification service's), names drawn from
`['notification-service']` by index, each slot mapped by
`settledHealthEntry`; the top-level status is `"healthy"` unless the
aggregation itself throws, in which case `{"unhealthy", [], timestamp}`. -/
def queryHealth (cfg : AppConfig) (env : Env) (t0 t1 : Int) (timestamp : String) :
    Except Throwable HealthSnapshot :=
  jsTry
    (let settled := [promiseSettle (NotificationService.healthCheck cfg env t0 t1)]
     let names := ["notification-service"]
     .ok ⟨"healthy", timestamp,
          (names.zip settled).map (fun p => settledHealthEntry p.1 p.2)⟩)
    (fun _ => .ok ⟨"unhealthy", timestamp, []⟩)

/-! ### Concrete environments used by witnesses and counterexamples -/

/-- A downstream that always answers `200 OK` with JSON body `null`. -/
def envOk200 : Env := fun _ => .response ⟨200, "OK", .ok .null⟩

/-- A downstream that always answers `404 Not Found`. -/
def env404 : Env := fun _ => .response ⟨404, "Not Found", .ok .null⟩

/-- A downstream that always answers `503 Service Unavailable`. -/
def env503 : Env := fun _ => .response ⟨503, "Service Unavailable", .ok .null⟩

/-- A downstream that always answers `500 Internal Server Error`. -/
def env500resp : Env := fun _ => .response ⟨500, "Internal Server Error", .ok .null⟩

/-- A transport whose calls are cancelled by the abort deadline. -/
def envAbort : Env := fun _ => .thrown (.error "AbortError" "This operation was aborted")

/-- A transport that rejects with an `Error` whose message is empty. -/
def envEmptyMsg : Env := fun _ => .thrown (.error "TypeError" "")

/-- A mocked account service returning two accounts for customer `cust789`. -/
def envTwoAccounts : Env := fun _ =>
  .response ⟨200, "OK",
    .ok (.arr
      [.obj [("id", .str "1"), ("accountNumber", .str "ACC-1"),
             ("customerId", .str "cust789")],
       .obj [("id", .str "2"), ("accountNumber", .str "ACC-2"),
             ("customerId", .str "cust789")]])⟩

/-! ### Branch characterization of `HttpClient.requestE` -/

/-- `Response.ok` is exactly membership of the 2xx success range. -/
theorem FetchResponse.ok_iff (r : FetchResponse) :
    r.ok = true ↔ (200 ≤ r.status ∧ r.status ≤ 299) := by
  simp [FetchResponse.ok]

/-- On a non-ok response the client returns the protocol-error envelope. -/
theorem requestE_response_notOk (c : HttpClient) (env : Env) (m p : String)
    (d : Option Json) (hs : List (String × String)) (r : FetchResponse)
    (henv : env (c.buildRequest m p d hs) = .response r) (hok : r.ok = false) :
    c.requestE env m p d hs =
      .ok ⟨r.status, none, some ("HTTP " ++ toString r.status ++ ": " ++ r.statusText)⟩ := by
  simp [HttpClient.requestE, henv, jsAwaitFetch, hok, jsTry]

/-- On an ok response with a parsed body the client returns the data envelope. -/
theorem requestE_response_ok_parsed (c : HttpClient) (env : Env) (m p : String)
    (d : Option Json) (hs : List (String × String)) (r : FetchResponse) (j : Json)
    (henv : env (c.buildRequest m p d hs) = .response r) (hok : r.ok = true)
    (hjson : r.jsonBody = .ok j) :
    c.requestE env m p d hs = .ok ⟨r.status, some j, none⟩ := by
  simp [HttpClient.requestE, henv, jsAwaitFetch, hok, hjson, jsTry]

/-- The catch block on a rejected fetch: `AbortError` becomes the 408
envelope. -/
theorem requestE_thrown_abort (c : HttpClient) (env : Env) (m p : String)
    (d : Option Json) (hs : List (String × String)) (msg : String)
    (henv : env (c.buildRequest m p d hs) = .thrown (.error "AbortError" msg)) :
    c.requestE env m p d hs = .ok ⟨408, none, some "Request timeout"⟩ := by
  simp [HttpClient.requestE, henv, jsAwaitFetch, jsTry]

/-- The catch block on a rejected fetch: any other `Error` becomes the 500
envelope carrying its message. -/
theorem requestE_thrown_otherError (c : HttpClient) (env : Env) (m p : String)
    (d : Option Json) (hs : List (String × String)) (nm msg : String)
    (henv : env (c.buildRequest m p d hs) = .thrown (.error nm msg))
    (hnm : nm ≠ "AbortError") :
    c.requestE env m p d hs = .ok ⟨500, none, some msg⟩ := by
  simp [HttpClient.requestE, henv, jsAwaitFetch, jsTry, hnm]

/-- The catch block on a rejected fetch: a non-`Error` throwable becomes the
fixed-message 500 envelope. -/
theorem requestE_thrown_nonError (c : HttpClient) (env : Env) (m p : String)
    (d : Option Json) (hs : List (String × String))
    (henv : env (c.buildRequest m p d hs) = .thrown .nonError) :
    c.requestE env m p d hs = .ok ⟨500, none, some "Unknown error occurred"⟩ := by
  simp [HttpClient.requestE, henv, jsAwaitFetch, jsTry]

/-- The catch block when `response.json()` itself throws after an ok status:
the same throwable mapping applies. -/
theorem requestE_parse_thrown (c : HttpClient) (env : Env) (m p : String)
    (d : Option Json) (hs : List (String × String)) (r : FetchResponse) (t : Throwable)
    (henv : env (c.buildRequest m p d hs) = .response r) (hok : r.ok = true)
    (hjson : r.jsonBody = .error t) :
    c.requestE env m p d hs =
      .ok (match t with
           | .error nm msg =>
              if nm = "AbortError" then ⟨408, none, some "Request timeout"⟩
              else ⟨500, none, some msg⟩
           | .nonError => ⟨500, none, some "Unknown error occurred"⟩) := by
  cases t with
  | error nm msg =>
      by_cases h : nm = "AbortError" <;>
        simp [HttpClient.requestE, henv, jsAwaitFetch, hok, hjson, jsTry, h]
  | nonError => simp [HttpClient.requestE, henv, jsAwaitFetch, hok, hjson, jsTry]

/-- `HttpClient.request` resolves on every path: the try/catch returns a
`ServiceResponse` in every branch and never rethrows. -/
theorem requestE_total (c : HttpClient) (env : Env) (m p : String)
    (d : Option Json) (hs : List (String × String)) :
    ∃ sr : ServiceResponse, c.requestE env m p d hs = .ok sr := by
  cases henv : env (c.buildRequest m p d hs) with
  | thrown t =>
      cases t with
      | error nm msg =>
          by_cases h : nm = "AbortError"
          · subst h; exact ⟨_, requestE_thrown_abort c env m p d hs msg henv⟩
          · exact ⟨_, requestE_thrown_otherError c env m p d hs nm msg henv h⟩
      | nonError => exact ⟨_, requestE_thrown_nonError c env m p d hs henv⟩
  | response r =>
      by_cases hok : r.ok
      · cases hjson : r.jsonBody with
        | ok j => exact ⟨_, requestE_response_ok_parsed c env m p d hs r j henv hok hjson⟩
        | error t => exact ⟨_, requestE_parse_thrown c env m p d hs r t henv hok hjson⟩
      · exact ⟨_, requestE_response_notOk c env m p d hs r henv (by simpa using hok)⟩

/-- `HttpClient.healthCheck` resolves on every path. -/
theorem healthCheckE_total (c : HttpClient) (env : Env) (t0 t1 : Int) :
    ∃ hr : HealthResult, c.healthCheckE env t0 t1 = .ok hr := by
  obtain ⟨sr, hsr⟩ := requestE_total c env "GET" "/health" none []
  refine ⟨⟨if sr.status = 200 then "healthy" else "unhealthy", t1 - t0⟩, ?_⟩
  simp [HttpClient.healthCheckE, hsr, jsTry]

/-! ### Claim theorems -/

/-- C2: for every HTTP response with status outside the 2xx success range,
`HttpClient.request` returns exactly
`{status, error: "HTTP <status>: <status text>"}`, never sets `data`, and
does not read the response body in this branch (two responses agreeing on
status and status text but with arbitrary, different body outcomes produce
identical results). -/
theorem request_non2xx_error_envelope (c : HttpClient) (env envB : Env)
    (m p : String) (d : Option Json) (hs : List (String × String))
    (r rB : FetchResponse)
    (henv : env (c.buildRequest m p d hs) = .response r)
    (hstat : ¬(200 ≤ r.status ∧ r.status ≤ 299))
    (henvB : envB (c.buildRequest m p d hs) = .response rB)
    (hBs : rB.status = r.status) (hBt : rB.statusText = r.statusText) :
    c.requestE env m p d hs =
      .ok ⟨r.status, none, some ("HTTP " ++ toString r.status ++ ": " ++ r.statusText)⟩
    ∧ c.requestE envB m p d hs = c.requestE env m p d hs := by
  have hok : r.ok = false := by
    simp only [FetchResponse.ok, Bool.and_eq_false_iff, decide_eq_false_iff_not]
    omega
  have hokB : rB.ok = false := by
    simp only [FetchResponse.ok, Bool.and_eq_false_iff, decide_eq_false_iff_not]
    omega
  have h1 := requestE_response_notOk c env m p d hs r henv hok
  have h2 := requestE_response_notOk c envB m p d hs rB henvB hokB
  refine ⟨h1, ?_⟩
  rw [h1, h2, hBs, hBt]

/-- Closed instance of C2 at a concrete 404 response. -/
theorem request_non2xx_error_envelope_witness :
    (HttpClient.create appConfigDefault "http://example.com" none []).requestE
        env404 "GET" "/notfound" none []
      = .ok ⟨404, none, some "HTTP 404: Not Found"⟩ :=
  (request_non2xx_error_envelope
      (HttpClient.create appConfigDefault "http://example.com" none [])
      env404 env404 "GET" "/notfound" none []
      ⟨404, "Not Found", .ok .null⟩ ⟨404, "Not Found", .ok .null⟩
      rfl (by decide) rfl rfl rfl).1

/-- C3: a call cancelled with a was-aborted cause (an `AbortError`-named
rejection, the deadline firing) yields exactly
`{status: 408, error: "Request timeout"}`; any other raised `Error` maps to
`{status: 500, error: <its message>}`; any non-`Error` throwable maps to
`{status: 500, error: "Unknown error occurred"}`. -/
theorem request_thrown_error_normalization (c : HttpClient) (env : Env)
    (m p : String) (d : Option Json) (hs : List (String × String)) (t : Throwable)
    (henv : env (c.buildRequest m p d hs) = .thrown t) :
    (∀ msg, t = .error "AbortError" msg →
        c.requestE env m p d hs = .ok ⟨408, none, some "Request timeout"⟩)
    ∧ (∀ nm msg, t = .error nm msg → nm ≠ "AbortError" →
        c.requestE env m p d hs = .ok ⟨500, none, some msg⟩)
    ∧ (t = .nonError →
        c.requestE env m p d hs = .ok ⟨500, none, some "Unknown error occurred"⟩) := by
  refine ⟨?_, ?_, ?_⟩
  · intro msg h; subst h; exact requestE_thrown_abort c env m p d hs msg henv
  · intro nm msg h hnm; subst h; exact requestE_thrown_otherError c env m p d hs nm msg henv hnm
  · intro h; subst h; exact requestE_thrown_nonError c env m p d hs henv

/-- Closed instance of C3 at a concrete aborted call. -/
theorem request_thrown_error_normalization_witness :
    (HttpClient.create appConfigDefault "http://example.com" none []).requestE
        envAbort "GET" "/test" none []
      = .ok ⟨408, none, some "Request timeout"⟩ :=
  (request_thrown_error_normalization
      (HttpClient.create appConfigDefault "http://example.com" none [])
      envAbort "GET" "/test" none []
      (.error "AbortError" "This operation was aborted") rfl).1
    "This operation was aborted" rfl

/-- Counterexample to C4 as stated: a defined but falsy body (`false`) is
dropped from the outbound call (`data ? JSON.stringify(data) : undefined`
tests truthiness, not definedness), although its JSON serialization
(`"false"`) exists. -/
theorem request_body_defined_but_falsy_omitted :
    ((HttpClient.create appConfigDefault "http://example.com" none []).request envOk200
        "POST" "/items" (some (Json.bool false)) []).1.map OutboundRequest.body = [none]
    ∧ some (Json.stringify (Json.bool false)) ≠ (none : Option String) :=
  ⟨rfl, by simp⟩

/-- C4 (amended): `request` issues exactly one outbound call; its body is
the JSON serialization of `body` whenever `body` is truthy, and the body
field is absent whenever `body` is `undefined` or otherwise falsy. -/
theorem request_single_call_body_truthy (c : HttpClient) (env : Env)
    (m p : String) (d : Option Json) (hs : List (String × String)) :
    (c.request env m p d hs).1 = [c.buildRequest m p d hs]
    ∧ (d = none → (c.buildRequest m p d hs).body = none)
    ∧ (∀ j, d = some j → j.truthy = true →
        (c.buildRequest m p d hs).body = some j.stringify)
    ∧ (∀ j, d = some j → j.truthy = false →
        (c.buildRequest m p d hs).body = none) := by
  refine ⟨rfl, ?_, ?_, ?_⟩
  · intro h; subst h; rfl
  · intro j h ht; subst h; simp [HttpClient.buildRequest, jsRequestBody, ht]
  · intro j h ht; subst h; simp [HttpClient.buildRequest, jsRequestBody, ht]

/-- Closed instance of the amended C4 at a concrete truthy object body. -/
theorem request_single_call_body_truthy_witness :
    ((HttpClient.create appConfigDefault "http://example.com" none []).request envOk200
        "POST" "/items" (some (Json.obj [("name", Json.str "test")])) []).1
      = [(HttpClient.create appConfigDefault "http://example.com" none []).buildRequest
          "POST" "/items" (some (Json.obj [("name", Json.str "test")])) []]
    ∧ ((HttpClient.create appConfigDefault "http://example.com" none []).buildRequest
          "POST" "/items" (some (Json.obj [("name", Json.str "test")])) []).body
      = some (Json.stringify (Json.obj [("name", Json.str "test")])) := by
  have h := request_single_call_body_truthy
    (HttpClient.create appConfigDefault "http://example.com" none [])
    envOk200 "POST" "/items" (some (Json.obj [("name", Json.str "test")])) []
  exact ⟨h.1, h.2.2.1 _ rfl rfl⟩

/-- C5: `healthCheck` never raises; it always resolves to
`{status: "healthy"|"unhealthy", responseTime ≥ 0}` (elapsed wall-clock time
under a monotone clock), and the status is `"healthy"` exactly when the
underlying `GET /health` envelope carries status 200. -/
theorem healthCheck_never_raises_and_shape (c : HttpClient) (env : Env)
    (t0 t1 : Int) (hmono : t0 ≤ t1) :
    ∃ hr : HealthResult, c.healthCheckE env t0 t1 = .ok hr
      ∧ (hr.status = "healthy" ∨ hr.status = "unhealthy")
      ∧ 0 ≤ hr.responseTime
      ∧ (hr.status = "healthy" ↔
          ∃ sr : ServiceResponse,
            c.requestE env "GET" "/health" none [] = .ok sr ∧ sr.status = 200) := by
  obtain ⟨sr, hsr⟩ := requestE_total c env "GET" "/health" none []
  refine ⟨⟨if sr.status = 200 then "healthy" else "unhealthy", t1 - t0⟩, ?_, ?_, ?_, ?_⟩
  · simp [HttpClient.healthCheckE, hsr, jsTry]
  · by_cases h : sr.status = 200 <;> simp [h]
  · simpa using sub_nonneg.mpr hmono
  · by_cases h : sr.status = 200
    · refine iff_of_true ?_ ⟨sr, hsr, h⟩
      simp [h]
    · refine iff_of_false ?_ ?_
      · simp [h]
      · rintro ⟨sr2, hsr2, h200⟩
        rw [hsr] at hsr2
        injection hsr2 with he
        subst he
        exact h h200

/-- Closed instance of C5 at a concrete unhealthy downstream. -/
theorem healthCheck_never_raises_and_shape_witness :
    (0 : Int) ≤ 7 ∧
    ∃ hr : HealthResult,
      (HttpClient.create appConfigDefault "http://example.com" none []).healthCheckE
          env503 0 7 = .ok hr
      ∧ (hr.status = "healthy" ∨ hr.status = "unhealthy")
      ∧ 0 ≤ hr.responseTime
      ∧ (hr.status = "healthy" ↔
          ∃ sr : ServiceResponse,
            (HttpClient.create appConfigDefault "http://example.com" none []).requestE
                env503 "GET" "/health" none [] = .ok sr ∧ sr.status = 200) :=
  ⟨by decide,
   healthCheck_never_raises_and_shape
     (HttpClient.create appConfigDefault "http://example.com" none [])
     env503 0 7 (by decide)⟩

/-- C10: every terminal envelope produced by `HttpClient.request` has
`status` set with exactly one of `data`/`error` populated, `data` exactly
on the 2xx results. -/
theorem service_response_envelope_invariant (c : HttpClient) (env : Env)
    (m p : String) (d : Option Json) (hs : List (String × String)) :
    ∃ sr : ServiceResponse, c.requestE env m p d hs = .ok sr
      ∧ ((sr.data.isSome = true ∧ sr.error = none)
          ∨ (sr.data = none ∧ sr.error.isSome = true))
      ∧ ((200 ≤ sr.status ∧ sr.status ≤ 299) ↔ sr.data.isSome = true) := by
  cases henv : env (c.buildRequest m p d hs) with
  | thrown t =>
      cases t with
      | error nm msg =>
          by_cases h : nm = "AbortError"
          · subst h
            refine ⟨⟨408, none, some "Request timeout"⟩,
              requestE_thrown_abort c env m p d hs msg henv, Or.inr ⟨rfl, rfl⟩, ?_⟩
            simp
          · refine ⟨⟨500, none, some msg⟩,
              requestE_thrown_otherError c env m p d hs nm msg henv h,
              Or.inr ⟨rfl, rfl⟩, ?_⟩
            simp
      | nonError =>
          refine ⟨⟨500, none, some "Unknown error occurred"⟩,
            requestE_thrown_nonError c env m p d hs henv, Or.inr ⟨rfl, rfl⟩, ?_⟩
          simp
  | response r =>
      by_cases hok : r.ok
      · cases hjson : r.jsonBody with
        | ok j =>
            refine ⟨⟨r.status, some j, none⟩,
              requestE_response_ok_parsed c env m p d hs r j henv hok hjson,
              Or.inl ⟨rfl, rfl⟩, ?_⟩
            simpa using (FetchResponse.ok_iff r).mp hok
        | error t =>
            cases t with
            | error nm msg =>
                by_cases h : nm = "AbortError"
                · subst h
                  refine ⟨⟨408, none, some "Request timeout"⟩, ?_,
                    Or.inr ⟨rfl, rfl⟩, ?_⟩
                  · simpa using requestE_parse_thrown c env m p d hs r _ henv hok hjson
                  · simp
                · refine ⟨⟨500, none, some msg⟩, ?_, Or.inr ⟨rfl, rfl⟩, ?_⟩
                  · have h3 := requestE_parse_thrown c env m p d hs r _ henv hok hjson
                    simpa [h] using h3
                  · simp
            | nonError =>
                refine ⟨⟨500, none, some "Unknown error occurred"⟩, ?_,
                  Or.inr ⟨rfl, rfl⟩, ?_⟩
                · simpa using requestE_parse_thrown c env m p d hs r _ henv hok hjson
                · simp
      · have hok2 : r.ok = false := by simpa using hok
        have hns : ¬(200 ≤ r.status ∧ r.status ≤ 299) := by
          intro hc
          exact hok ((FetchResponse.ok_iff r).mpr hc)
        refine ⟨⟨r.status, none, some ("HTTP " ++ toString r.status ++ ": " ++ r.statusText)⟩,
          requestE_response_notOk c env m p d hs r henv hok2, Or.inr ⟨rfl, rfl⟩, ?_⟩
        simpa using hns

/-- Counterexample to C6 as stated: with a downstream rejection whose
`Error` message is empty, the envelope carries `error: ""` — set, but falsy
— and `deleteUser` returns `false` instead of raising. -/
theorem delete_empty_error_returns_false :
    UserService.deleteUser appConfigDefault envEmptyMsg "u1" = .ok false
    ∧ (Except.ok false : Except Throwable Bool) ≠ .error (.error "Error" "") :=
  ⟨rfl, by simp⟩

/-- C6 (amended): the delete operations raise `Error(response.error)`
whenever the envelope's `error` is set to a non-empty (truthy) string,
regardless of status; when `error` is falsy (absent or empty) they return
`true` exactly when the downstream status was 204. -/
theorem delete_ops_raise_on_truthy_error (cfg : AppConfig) (env : Env) (id : String)
    (ru rp rn : ServiceResponse)
    (hu : (userClient cfg).requestE env "DELETE" ("/users/" ++ id) none [] = .ok ru)
    (hp : (productClient cfg).requestE env "DELETE" ("/products/" ++ id) none [] = .ok rp)
    (hn : (notificationClient cfg).requestE env "DELETE" ("/notifications/" ++ id) none []
          = .ok rn) :
    ((∀ e, ru.error = some e → e ≠ "" →
        UserService.deleteUser cfg env id = .error (.error "Error" e))
      ∧ (jsTruthyStr ru.error = false →
          (UserService.deleteUser cfg env id = .ok true ↔ ru.status = 204)))
    ∧ ((∀ e, rp.error = some e → e ≠ "" →
        ProductService.deleteProduct cfg env id = .error (.error "Error" e))
      ∧ (jsTruthyStr rp.error = false →
          (ProductService.deleteProduct cfg env id = .ok true ↔ rp.status = 204)))
    ∧ ((∀ e, rn.error = some e → e ≠ "" →
        NotificationService.deleteNotification cfg env id = .error (.error "Error" e))
      ∧ (jsTruthyStr rn.error = false →
          (NotificationService.deleteNotification cfg env id = .ok true ↔ rn.status = 204))) := by
  refine ⟨⟨?_, ?_⟩, ⟨?_, ?_⟩, ⟨?_, ?_⟩⟩
  · intro e he hne
    simp [UserService.deleteUser, hu, he, jsTruthyStr, bne_iff_ne, hne]
  · intro hf
    simp [UserService.deleteUser, hu, hf]
  · intro e he hne
    simp [ProductService.deleteProduct, hp, he, jsTruthyStr, bne_iff_ne, hne]
  · intro hf
    simp [ProductService.deleteProduct, hp, hf]
  · intro e he hne
    simp [NotificationService.deleteNotification, hn, he, jsTruthyStr, bne_iff_ne, hne]
  · intro hf
    simp [NotificationService.deleteNotification, hn, hf]

/-- Closed instance of the amended C6: a 404 envelope's truthy error is
raised by `deleteUser`. -/
theorem delete_ops_raise_on_truthy_error_witness :
    UserService.deleteUser appConfigDefault env404 "u1" =
      .error (.error "Error" "HTTP 404: Not Found") :=
  ((delete_ops_raise_on_truthy_error appConfigDefault env404 "u1"
      ⟨404, none, some "HTTP 404: Not Found"⟩
      ⟨404, none, some "HTTP 404: Not Found"⟩
      ⟨404, none, some "HTTP 404: Not Found"⟩
      rfl rfl rfl).1).1 "HTTP 404: Not Found" rfl (by decide)

/-- Counterexample to C7 as stated: a downstream failure reaching
`userResolvers.Query.user` leaves the resolver as the plain `Error` it was
— the resolver performs no conversion to a GraphQL-typed error and the
failure is not re-thrown as a `GraphQLError`. -/
theorem user_resolver_plain_error_not_graphql :
    userQueryUser appConfigDefault env500resp "u1" =
      .error (.plainError "HTTP 500: Internal Server Error")
    ∧ (Except.error (GqlThrown.plainError "HTTP 500: Internal Server Error") :
        Except GqlThrown Json)
      ≠ .error (.graphQLError "HTTP 500: Internal Server Error") :=
  ⟨rfl, by simp⟩

/-- C7 (amended): the resolvers wired into the combined resolver map
(`accountResolver`, `customerResolver`) normalize a failure into a
`GraphQLError` carrying the underlying `Error` message verbatim, while the
`userResolvers` pass-throughs propagate the service failure unchanged as a
plain error, performing no conversion at the resolver boundary. -/
theorem resolver_error_channels (cfg : AppConfig) (env : Env) (id : String)
    (customer : CustomerParent) :
    (∀ nm msg, (AccountService.getAccountById cfg env id).2 = .error (.error nm msg) →
        (accountResolver.getAccount cfg env id).2 = .error (.graphQLError msg))
    ∧ (∀ nm msg,
        (AccountService.getAccountsByCustomerId cfg env customer.id).2
            = .error (.error nm msg) →
        (customerResolver.getAccounts cfg env customer).2 = .error (.graphQLError msg))
    ∧ (∀ nm msg, (CustomerService.getCustomerById cfg env id).2 = .error (.error nm msg) →
        (customerResolver.getCustomer cfg env id).2 = .error (.graphQLError msg))
    ∧ (∀ t, UserService.getUserById cfg env id = .error t →
        userQueryUser cfg env id = .error t.toGql)
    ∧ (∀ nm msg, Throwable.toGql (.error nm msg) = .plainError msg) := by
  refine ⟨?_, ?_, ?_, ?_, ?_⟩
  · intro nm msg h
    simp [accountResolver.getAccount, h, Throwable.messageOr]
  · intro nm msg h
    simp [customerResolver.getAccounts, h, Throwable.messageOr]
  · intro nm msg h
    simp [customerResolver.getCustomer, h, Throwable.messageOr]
  · intro t h
    simp [userQueryUser, h]
  · intro nm msg
    rfl

/-- Closed instance of the amended C7: the user resolver propagates the
service's plain error unchanged. -/
theorem resolver_error_channels_witness :
    userQueryUser appConfigDefault env500resp "u2" =
      .error (Throwable.toGql (.error "Error" "HTTP 500: Internal Server Error")) :=
  (resolver_error_channels appConfigDefault env500resp "u2" ⟨"c1"⟩).2.2.2.1
    (.error "Error" "HTTP 500: Internal Server Error") rfl

/-- C8: the `Customer.accounts` resolver issues exactly one downstream call,
whose query string carries `customerId` equal to the parent's `id`, and
returns the account list produced by that call unmodified. -/
theorem customer_accounts_one_call_passthrough (cfg : AppConfig) (env : Env)
    (customer : CustomerParent) :
    (customerResolver.getAccounts cfg env customer).1 =
      [⟨cfg.accountServiceUrl ++ "/accounts?customerId=" ++ customer.id,
        "GET", [], none, none⟩]
    ∧ (∀ v, (AccountService.getAccountsByCustomerId cfg env customer.id).2 = .ok v →
        (customerResolver.getAccounts cfg env customer).2 = .ok v) := by
  refine ⟨rfl, ?_⟩
  intro v h
  simp [customerResolver.getAccounts, h]

/-- Closed instance of C8: two mocked accounts for `cust789` come back
unmodified. -/
theorem customer_accounts_one_call_passthrough_witness :
    (customerResolver.getAccounts appConfigDefault envTwoAccounts ⟨"cust789"⟩).2 =
      .ok (.arr
        [.obj [("id", .str "1"), ("accountNumber", .str "ACC-1"),
               ("customerId", .str "cust789")],
         .obj [("id", .str "2"), ("accountNumber", .str "ACC-2"),
               ("customerId", .str "cust789")]]) :=
  (customer_accounts_one_call_passthrough appConfigDefault envTwoAccounts ⟨"cust789"⟩).2
    _ rfl

/-- Counterexample to C9 as stated: the direct account client issues its
call with no cancellation deadline attached, unlike the shared client whose
calls carry the configured timeout. -/
theorem account_client_call_has_no_deadline :
    ((AccountService.getAccountById appConfigDefault envOk200 "123").1.map
        OutboundRequest.timeoutMs) = [none]
    ∧ (none : Option Nat) ≠ some appConfigDefault.requestTimeout :=
  ⟨rfl, by simp⟩

/-- C9 (amended): calls issued through the shared `HttpClient` carry their
own cancellation deadline (the client's configured timeout) and an aborted
call surfaces as `{408, "Request timeout"}`; the direct account and
customer clients issue bare fetches with no deadline. -/
theorem deadline_on_shared_client_only (cfg : AppConfig) (c : HttpClient) (env : Env)
    (m p : String) (d : Option Json) (hs : List (String × String)) (id cid : String) :
    ((c.request env m p d hs).1.map OutboundRequest.timeoutMs = [some c.timeout])
    ∧ (∀ msg, env (c.buildRequest m p d hs) = .thrown (.error "AbortError" msg) →
        c.requestE env m p d hs = .ok ⟨408, none, some "Request timeout"⟩)
    ∧ ((AccountService.getAccountById cfg env id).1.map OutboundRequest.timeoutMs = [none])
    ∧ ((AccountService.getAccountsByCustomerId cfg env cid).1.map
        OutboundRequest.timeoutMs = [none])
    ∧ ((CustomerService.getCustomerById cfg env id).1.map OutboundRequest.timeoutMs = [none]) := by
  refine ⟨rfl, ?_, rfl, rfl, rfl⟩
  intro msg h
  exact requestE_thrown_abort c env m p d hs msg h

/-- Closed instance of the amended C9: an aborted shared-client call comes
back as the 408 envelope. -/
theorem deadline_on_shared_client_only_witness :
    (HttpClient.create appConfigDefault "http://example.com" none []).requestE
        envAbort "PUT" "/w" none [] = .ok ⟨408, none, some "Request timeout"⟩ :=
  (deadline_on_shared_client_only appConfigDefault
      (HttpClient.create appConfigDefault "http://example.com" none [])
      envAbort "PUT" "/w" none [] "a" "b").2.1 "This operation was aborted" rfl

/-- Counterexample to C1 as stated: with a failing downstream (`/health`
answers 503) the per-service check still fulfills — `healthCheck` never
rejects — so the aggregator reports the service as `"healthy"` with a
numeric `responseTime`, not as `{"unhealthy", responseTime: null}`. -/
theorem aggregator_marks_failing_downstream_healthy :
    queryHealth appConfigDefault env503 0 5 "ts" =
      .ok ⟨"healthy", "ts", [⟨"notification-service", "healthy", some 5⟩]⟩
    ∧ (⟨"notification-service", "healthy", some 5⟩ : ServiceHealthEntry)
      ≠ ⟨"notification-service", "unhealthy", none⟩ :=
  ⟨rfl, by decide⟩

/-- C1 (amended): the aggregator never raises and returns one entry per
participating check; a rejected slot maps to `{name, "unhealthy", null}`
and a fulfilled slot to `{name, "healthy", responseTime || 0}` — and since
`healthCheck` never rejects, every slot (a failing downstream included)
settles fulfilled. -/
theorem aggregator_settled_entries (cfg : AppConfig) (env : Env) (t0 t1 : Int)
    (ts : String) :
    (∀ hr, NotificationService.healthCheck cfg env t0 t1 = .ok hr →
        queryHealth cfg env t0 t1 ts =
          .ok ⟨"healthy", ts,
              [⟨"notification-service", "healthy", some (jsNumOrZero hr.responseTime)⟩]⟩)
    ∧ (∃ hr, NotificationService.healthCheck cfg env t0 t1 = .ok hr)
    ∧ (∀ nm r, settledHealthEntry nm (.rejected r) = ⟨nm, "unhealthy", none⟩)
    ∧ (∀ nm v, settledHealthEntry nm (.fulfilled v) =
        ⟨nm, "healthy", some (jsNumOrZero v.responseTime)⟩) := by
  refine ⟨?_, ?_, ?_, ?_⟩
  · intro hr h
    simp [queryHealth, h, promiseSettle, jsTry, settledHealthEntry]
  · exact healthCheckE_total (notificationClient cfg) env t0 t1
  · intro nm r; rfl
  · intro nm v; rfl

/-- Closed instance of the amended C1 at a failing downstream. -/
theorem aggregator_settled_entries_witness :
    queryHealth appConfigDefault env503 0 9 "t" =
      .ok ⟨"healthy", "t",
          [⟨"notification-service", "healthy", some (jsNumOrZero 9)⟩]⟩ :=
  (aggregator_settled_entries appConfigDefault env503 0 9 "t").1 ⟨"unhealthy", 9⟩ rfl

end Conduites
